import Mathlib

/-!
Verification of the receipt-OCR pipeline core (`pipeline.py`, `llm_normalize.py`,
`api.py`) against its natural-language specification.

The Python code is shallowly embedded: Python values are modelled by `PyVal`,
Python dicts by association lists with first-match lookup, and every effectful
collaborator (the LayoutLM / Donut inference backends, `json.loads`, the Ollama
`chat` call, the HTTP POST of the callback, the process environment) is passed
in as an explicit function argument ("oracle"), so that each theorem quantifies
over every possible behaviour of that collaborator.
-/

namespace ReceiptOCR

/-- Model of a Python value as produced by `json.loads` and passed around the
pipeline.  `PyVal.none` is Python `None` (JSON `null`). -/
inductive PyVal where
  | none
  | bool (b : Bool)
  | int (n : Int)
  | str (s : String)
  | list (xs : List PyVal)
  | dict (kvs : List (String × PyVal))

/-- A Python dict, modelled as an association list; lookups take the first
match, and all dicts built by the embedded code have pairwise-distinct keys. -/
abbrev PyDict := List (String × PyVal)

/-- `d.get(k)`: Python dict lookup with default `None` (also returned when the
stored value is `None` itself, exactly as in Python). -/
def dget (d : PyDict) (k : String) : PyVal :=
  match d.find? (fun kv => kv.1 == k) with
  | some kv => kv.2
  | Option.none => PyVal.none

/-- `k in d`: Python dict membership test. -/
def dhas (d : PyDict) (k : String) : Bool :=
  d.any (fun kv => kv.1 == k)

/-- `list(d.keys())` in insertion order. -/
def dkeys (d : PyDict) : List String :=
  d.map Prod.fst

/-- Does the character list `cs` contain `pat` as a contiguous sublist? -/
def containsSub (pat : List Char) : List Char → Bool
  | [] => pat.isPrefixOf ([] : List Char)
  | c :: cs => pat.isPrefixOf (c :: cs) || containsSub pat cs

/-- Python `pat in s` (substring containment). -/
def strContains (s pat : String) : Bool :=
  containsSub pat.toList s.toList

/-- Characters of `cs` strictly before the first occurrence of `pat`
(the whole list when `pat` does not occur): Python `s.split(pat)[0]`. -/
def takeUntilPat (pat : List Char) : List Char → List Char
  | [] => []
  | c :: cs => if pat.isPrefixOf (c :: cs) then [] else c :: takeUntilPat pat cs

/-- Python `s.split(pat)[0]`. -/
def takeBefore (s pat : String) : String :=
  String.mk (takeUntilPat pat.toList s.toList)

/-- Index of the first occurrence of `pat` in `cs`, if any. -/
def findPat (pat : List Char) : List Char → Option Nat
  | [] => if pat.isPrefixOf ([] : List Char) then some 0 else Option.none
  | c :: cs =>
    if pat.isPrefixOf (c :: cs) then some 0
    else
      match findPat pat cs with
      | some n => some (n + 1)
      | Option.none => Option.none

/-- Drop leading whitespace characters (the greedy regex fragment `\s*`). -/
def dropLeadingWs : List Char → List Char
  | [] => []
  | c :: cs => if c.isWhitespace then dropLeadingWs cs else c :: cs

/-- Python `str.strip()`: remove leading and trailing whitespace. -/
def pyStrip (s : String) : String :=
  String.mk ((dropLeadingWs (dropLeadingWs s.toList).reverse).reverse)

/-- Python `str.lower()`. -/
def pyLower (s : String) : String :=
  String.mk (s.toList.map Char.toLower)

/-- `llm_normalize.RECEIPT_KEYS` (llm_normalize.py lines 10-13): the nine
schema fields of a receipt. -/
def RECEIPT_KEYS : List String :=
  ["store_name", "shop_name", "date", "total_amount", "tax_amount",
   "gst_amount", "sales_tax", "received", "payable"]

/-- `pipeline.DEFAULT_QUESTIONS` (pipeline.py lines 27-37). -/
def DEFAULT_QUESTIONS : List String :=
  ["What is the store or business name?",
   "What is the shop name?",
   "What is the date on the receipt?",
   "What is the total amount?",
   "What is the tax amount?",
   "What is the GST amount?",
   "What is the sales tax?",
   "What is the amount received?",
   "What is the amount payable?"]

/-- The separator LayoutLM output appends before its confidence score
(pipeline.py line 61). -/
def CONF_SEP : String := "\n\n(Confidence:"

/-- `pipeline.parse_layoutlm_answer` (pipeline.py lines 57-63).  The stage
contract returns a string, so the `not isinstance(raw, str)` arm collapses to
the empty-string test; Python `str.strip` is modelled by `pyStrip`. -/
def parse_layoutlm_answer (raw : String) : String :=
  if raw = "" then ""
  else if strContains raw CONF_SEP then pyStrip (pyStrip (takeBefore raw CONF_SEP))
  else pyStrip raw

/-- `pipeline.ensure_receipt_schema` (pipeline.py lines 66-71): project any
dict onto exactly the nine schema keys. -/
def ensure_receipt_schema (receipt : PyDict) : PyDict :=
  RECEIPT_KEYS.map (fun key =>
    (key, if dhas receipt key then dget receipt key else PyVal.none))

/-- The markdown code-fence delimiter `(three backticks)` looked for by
`_parse_ollama_response` (llm_normalize.py line 38). -/
def FENCE : String := String.mk [Char.ofNat 96, Char.ofNat 96, Char.ofNat 96]

/-- Model of `re.search(r"(fence)(?:json)?\s*([\s\S]*?)(fence)", text)`
(llm_normalize.py line 39): from the first fence, optionally skip `json`,
skip whitespace, and capture lazily up to the next fence.  `Option.none` when
the regex does not match. -/
def fenceMatch (cs : List Char) : Option (List Char) :=
  match findPat FENCE.toList cs with
  | Option.none => Option.none
  | some i =>
    let rest := cs.drop (i + 3)
    let rest := if ("json".toList).isPrefixOf rest then rest.drop 4 else rest
    let rest := dropLeadingWs rest
    match findPat FENCE.toList rest with
    | Option.none => Option.none
    | some j => some (rest.take j)

/-- The code-fence stripping step of `_parse_ollama_response`
(llm_normalize.py lines 37-41): when the text contains a fence and the regex
matches, replace the text by `match.group(1).strip()`. -/
def fenceStrip (text : String) : String :=
  if strContains text FENCE then
    match fenceMatch text.toList with
    | some captured => pyStrip (String.mk captured)
    | Option.none => text
  else text

/-- `llm_normalize._parse_ollama_response` (llm_normalize.py lines 34-52).
`loads` models `json.loads` (`Option.none` = `JSONDecodeError`).  On a parsed
dict, `receipt[key] = data.get(key) if data.get(key) is not None else None`
is exactly `dget data key`. -/
def parse_ollama_response (loads : String → Option PyVal) (text : String) :
    PyDict :=
  let text1 := fenceStrip (pyStrip text)
  match loads text1 with
  | Option.none =>
    [("_raw", PyVal.str text1), ("_error", PyVal.str "Invalid JSON from LLM")]
  | some (PyVal.dict data) =>
    RECEIPT_KEYS.map (fun key => (key, dget data key))
  | some _ =>
    [("_raw", PyVal.str text1),
     ("_error", PyVal.str "LLM did not return a JSON object")]

/-- Outcome of one call to the external `ollama.chat` function, as observed by
`_normalize_via_ollama` (llm_normalize.py lines 65-79).
* `responseError msg`: `chat` raised `ollama.ResponseError`; `msg = str(e)`.
* `otherError msg`: `chat` raised an exception of any other type — e.g. the
  client library raises the builtin `ConnectionError` when the endpoint is
  unreachable — which the `except ResponseError` clause at line 74 does not
  catch.
* `reply content`: `chat` returned; `content` is `response.message.content`
  (the code maps a falsy `response` or `response.message` to `""`, which is
  the `reply ""` case here). -/
inductive ChatOutcome where
  | responseError (msg : String)
  | otherError (msg : String)
  | reply (content : String)

/-- One LayoutLM stage answer record `{"question": ..., "answer": ...}`. -/
structure QA where
  question : String
  answer : String
deriving DecidableEq

/-- Outcome of one call into an extraction stage: a returned value, or a
raised exception carrying `str(e)`. -/
inductive StageOutcome (α : Type) where
  | ok (v : α)
  | exn (msg : String)

/-- `llm_normalize._normalize_via_ollama` (llm_normalize.py lines 55-82).
The two list/dict arguments are serialized only into the user prompt, whose
effect on the backend is abstracted by the `chat` oracle; `model` is
`os.environ.get("OLLAMA_MODEL", "llama3.2")`.  `Except.error` models an
exception propagating out of the function: the `except` clause at line 74
catches exactly `ResponseError`, so a `ChatOutcome.otherError` escapes.
Message texts follow the source with Python `!r` quoting omitted. -/
def normalize_via_ollama (loads : String → Option PyVal) (model : String)
    (chat : ChatOutcome) (_layoutlm_results : List QA) (_donut_data : PyVal) :
    Except String PyDict :=
  match chat with
  | ChatOutcome.otherError msg => Except.error msg
  | ChatOutcome.responseError msg0 =>
    let msg := pyStrip msg0
    if strContains msg "404" || strContains (pyLower msg) "not found" then
      Except.ok [("_error", PyVal.str ("Ollama model " ++ model ++
        " not found. Set OLLAMA_MODEL in .env to a model you have (run ollama list)."))]
    else
      Except.ok [("_error", PyVal.str ("Ollama error: " ++ msg))]
  | ChatOutcome.reply text =>
    if text = "" then Except.ok [("_error", PyVal.str "Empty response from Ollama")]
    else Except.ok (parse_ollama_response loads text)

/-- `llm_normalize.normalize_receipt` (llm_normalize.py lines 159-170):
delegates to `_normalize_via_ollama`. -/
def normalize_receipt (loads : String → Option PyVal) (model : String)
    (chat : ChatOutcome) (layoutlm_results : List QA) (donut_data : PyVal) :
    Except String PyDict :=
  normalize_via_ollama loads model chat layoutlm_results donut_data

/-- Abridged model of Python `str(v)` for the `donut_data = {"_raw": str(donut_raw)}`
fall-through arm (pipeline.py line 114); no claim depends on its exact text. -/
def pyStr : PyVal → String
  | PyVal.none => "None"
  | PyVal.bool b => if b then "True" else "False"
  | PyVal.int n => toString n
  | PyVal.str s => s
  | PyVal.list _ => "<list>"
  | PyVal.dict _ => "<dict>"

/-- The Donut section of `pipeline.process_receipt_image` (pipeline.py lines
102-116): type-dispatch on the raw Donut output, parsing structured text
leniently and wrapping stage exceptions as `{"_error": str(e)}`. -/
def donut_data_of (loads : String → Option PyVal)
    (donutRaw : StageOutcome PyVal) : PyVal :=
  match donutRaw with
  | StageOutcome.exn e => PyVal.dict [("_error", PyVal.str e)]
  | StageOutcome.ok (PyVal.str s) =>
    match loads s with
    | some v => v
    | Option.none => PyVal.dict [("_raw_text", PyVal.str s)]
  | StageOutcome.ok (PyVal.dict kvs) => PyVal.dict kvs
  | StageOutcome.ok v => PyVal.dict [("_raw", PyVal.str (pyStr v))]

/-- The body of one iteration of the LayoutLM loop (pipeline.py lines
95-100): a returned raw answer is parsed, a raised exception is converted in
place into the `"[Error: <message>]"` marker. -/
def stage_entry (outcome : StageOutcome String) (q : String) : QA :=
  match outcome with
  | StageOutcome.ok raw => { question := q, answer := parse_layoutlm_answer raw }
  | StageOutcome.exn e => { question := q, answer := "[Error: " ++ e ++ "]" }

/-- The LayoutLM loop of `pipeline.process_receipt_image` (pipeline.py lines
92-100), accumulating one entry per question in order; `i` counts the calls
made so far, so `layoutlm i q` is the outcome of the `i`-th call
`layoutlm.process(image, q)`. -/
def layoutlm_stage_from (layoutlm : Nat → String → StageOutcome String)
    (i : Nat) : List String → List QA
  | [] => []
  | q :: qs => stage_entry (layoutlm i q) q :: layoutlm_stage_from layoutlm (i + 1) qs

/-- The full LayoutLM loop, first call index 0. -/
def layoutlm_stage (layoutlm : Nat → String → StageOutcome String)
    (questions : List String) : List QA :=
  layoutlm_stage_from layoutlm 0 questions

/-- The value returned by `pipeline.process_receipt_image`
(pipeline.py lines 123-128). -/
structure PipelineResult where
  receipt : PyDict
  receipt_meta : Option PyDict
  layoutlm_results : List QA
  donut_data : PyVal

/-- `if questions is None: questions = DEFAULT_QUESTIONS`
(pipeline.py lines 89-90). -/
def questions_or_default (questions : Option (List String)) : List String :=
  match questions with
  | Option.none => DEFAULT_QUESTIONS
  | some qs => qs

/-- The result assembly of `process_receipt_image` (pipeline.py lines
118-128): project the normalizer output onto the schema, move the diagnostic
keys `_error`/`_raw` (when any is present) into `receipt_meta`, and bundle
the stage outputs. -/
def assemble_result (layoutlm_results : List QA) (donut_data : PyVal)
    (receipt : PyDict) : PipelineResult :=
  { receipt := ensure_receipt_schema receipt,
    receipt_meta :=
      if dhas receipt "_error" || dhas receipt "_raw" then
        some (receipt.filter (fun kv => kv.1 == "_error" || kv.1 == "_raw"))
      else Option.none,
    layoutlm_results := layoutlm_results,
    donut_data := donut_data }

/-- `pipeline.process_receipt_image` (pipeline.py lines 74-128), the
Orchestrator.  Oracles: `layoutlm` and `donutRaw` are the extraction-stage
call outcomes on the given image, `loads` is `json.loads`, `chatModel`/`chat`
drive the normalization backend call.  `questions = Option.none` models the
Python `questions=None` default.  `Except.error` models an exception
propagating out of the call (only possible from `normalize_receipt`, see
`normalize_via_ollama`). -/
def process_receipt_image (layoutlm : Nat → String → StageOutcome String)
    (donutRaw : StageOutcome PyVal) (loads : String → Option PyVal)
    (chatModel : String) (chat : ChatOutcome)
    (questions : Option (List String)) : Except String PipelineResult :=
  let qs := questions_or_default questions
  let layoutlm_results := layoutlm_stage layoutlm qs
  let donut_data := donut_data_of loads donutRaw
  (normalize_receipt loads chatModel chat layoutlm_results donut_data).map
    (assemble_result layoutlm_results donut_data)

/-- The process environment, `os.environ.get`-style. -/
abbrev Env := String → Option String

/-- `os.environ.get(k, d)`. -/
def envGet (env : Env) (k d : String) : String :=
  (env k).getD d

/-- `api.CALLBACK_TIMEOUT_SEC` (api.py line 32); bounds one POST, unused by
any claim beyond configuration faithfulness. -/
def CALLBACK_TIMEOUT_SEC : Nat := 30

/-- `api.CALLBACK_RETRIES` (api.py line 33). -/
def CALLBACK_RETRIES : Nat := 2

/-- The retry loop of `api._send_callback` (api.py lines 112-124):
`for attempt in range(CALLBACK_RETRIES + 1)`.  `post i = true` means POST
attempt `i` succeeded (2xx, no `requests.RequestException`); on success the
function returns at once.  The result is the number of POST attempts made;
`remaining` is the number of loop iterations left, `i` the attempt index. -/
def callbackAttemptsFrom (post : Nat → Bool) : Nat → Nat → Nat
  | 0, _ => 0
  | remaining + 1, i => if post i then 1 else 1 + callbackAttemptsFrom post remaining (i + 1)

/-- `api._send_callback` (api.py lines 106-125), counted by POST attempts.
With no configured `CALLBACK_URL` (empty after strip) it logs and returns
without any attempt; otherwise it runs the retry loop.  The function is total:
every exception the loop can see (`requests.RequestException`) is caught, and
after the loop it logs the final failure and returns. -/
def send_callback (env : Env) (post : Nat → Bool) : Nat :=
  let callback_url := pyStrip (envGet env "CALLBACK_URL" "")
  if callback_url = "" then 0
  else callbackAttemptsFrom post (CALLBACK_RETRIES + 1) 0

/-- `api._include_raw` (api.py lines 128-129). -/
def include_raw (env : Env) : Bool :=
  ["1", "true", "yes"].contains (pyLower (pyStrip (envGet env "INCLUDE_RAW" "true")))

/-- `{"question": ..., "answer": ...}` dicts of a LayoutLM result list, as
serialized into responses and callback payloads. -/
def qaListVal (qas : List QA) : PyVal :=
  PyVal.list (qas.map (fun qa =>
    PyVal.dict [("question", PyVal.str qa.question), ("answer", PyVal.str qa.answer)]))

/-- `api._build_receipt_response` (api.py lines 132-142).  Python's
`if result["receipt_meta"]:` is truthiness, hence the empty-dict guard. -/
def build_receipt_response (env : Env) (result : PipelineResult) : PyDict :=
  let response : PyDict := [("receipt", PyVal.dict result.receipt)]
  let response :=
    if include_raw env then
      response ++ [("raw", PyVal.dict
        [("layoutlm", qaListVal result.layoutlm_results),
         ("donut", result.donut_data)])]
    else response
  match result.receipt_meta with
  | some meta =>
    if meta.isEmpty then response else response ++ [("receipt_meta", PyVal.dict meta)]
  | Option.none => response

/-- One observable action of the worker loop body or the synchronous handler.
`callback status` is one invocation of `_send_callback` with
`payload["status"] = status`; `removeFile` is a successful
`os.remove(image_path)`; `acquire`/`release` act on `_pipeline_semaphore`. -/
inductive WEffect where
  | callback (status : String)
  | acquire
  | release
  | removeFile
deriving DecidableEq

/-- Is the effect a `_send_callback` invocation? -/
def isCallbackEff : WEffect → Bool
  | WEffect.callback _ => true
  | _ => false

/-- Is the effect a successful file removal? -/
def isRemoveEff : WEffect → Bool
  | WEffect.removeFile => true
  | _ => false

/-- Is the effect a semaphore acquire? -/
def isAcquireEff : WEffect → Bool
  | WEffect.acquire => true
  | _ => false

/-- Is the effect a semaphore release? -/
def isReleaseEff : WEffect → Bool
  | WEffect.release => true
  | _ => false

/-- How the worker loop body terminates for one dequeued job: `nextJob` means
control reaches the end of the body (directly or via `continue`) and the
`while True` loop dequeues the next job. -/
inductive LoopOutcome where
  | nextJob
deriving DecidableEq

/-- `if os.path.isfile(image_path): os.remove(image_path)` (api.py lines
159-163, 173-177 and 193-197).  Removal is modelled as succeeding; the code
additionally swallows (`pass`) or logs an `OSError` from `os.remove`. -/
def removeIfPresent (filePresent : Bool) : List WEffect × Bool :=
  if filePresent then ([WEffect.removeFile], false) else ([], filePresent)

/-- Result of running the worker loop body on one job: the ordered observable
effects, how the body terminated, and whether the temp image still exists. -/
structure WorkerStep where
  effects : List WEffect
  outcome : LoopOutcome
  filePresent : Bool

/-- The body of `api._worker` for one dequeued job (api.py lines 151-198).
`filePresent` is whether the job's temp image exists when the body starts;
`decode` is the outcome of `Image.open(image_path).convert("RGB")`; the
remaining oracles are those of `process_receipt_image` and `_send_callback`.
Paths, as in the source:
* decode raises: failure callback, inline cleanup, `continue` (the outer
  `finally` then sees the file already gone);
* the throttled `process_receipt_image` call raises (`Except.error`): the
  inner `finally` has already released the semaphore, then the `except`
  clause sends a failure callback and cleans up before `continue`;
* success: the completed-status callback, then the outer `finally` cleanup. -/
def worker_body (filePresent : Bool) (decode : StageOutcome Unit)
    (layoutlm : Nat → String → StageOutcome String) (donutRaw : StageOutcome PyVal)
    (loads : String → Option PyVal) (chatModel : String) (chat : ChatOutcome)
    (questions : Option (List String)) : WorkerStep :=
  match decode with
  | StageOutcome.exn _ =>
    let cleanup1 := removeIfPresent filePresent
    let cleanup2 := removeIfPresent cleanup1.2
    { effects := [WEffect.callback "failed"] ++ cleanup1.1 ++ cleanup2.1,
      outcome := LoopOutcome.nextJob, filePresent := cleanup2.2 }
  | StageOutcome.ok _ =>
    match process_receipt_image layoutlm donutRaw loads chatModel chat questions with
    | Except.error _ =>
      let cleanup1 := removeIfPresent filePresent
      let cleanup2 := removeIfPresent cleanup1.2
      { effects := [WEffect.acquire, WEffect.release, WEffect.callback "failed"]
                   ++ cleanup1.1 ++ cleanup2.1,
        outcome := LoopOutcome.nextJob, filePresent := cleanup2.2 }
    | Except.ok _result =>
      let cleanup1 := removeIfPresent filePresent
      { effects := [WEffect.acquire, WEffect.release, WEffect.callback "completed"]
                   ++ cleanup1.1,
        outcome := LoopOutcome.nextJob, filePresent := cleanup1.2 }

/-- The HTTP response of the synchronous `/api/process` path.
`queueWaitTimeout` is the distinct "queue wait timeout" rejection the spec
describes; it is part of the response vocabulary so that theorems can state
whether the code ever produces it. -/
inductive SyncResponse where
  | badRequest (err : String)
  | okJson (body : PyDict)
  | serverError (msg : String)
  | queueWaitTimeout

/-- Is the response the queue-wait-timeout rejection? -/
def isQueueTimeoutResp : SyncResponse → Bool
  | SyncResponse.queueWaitTimeout => true
  | _ => false

/-- Result of the synchronous request path: observable semaphore effects and
the HTTP response. -/
structure SyncStep where
  effects : List WEffect
  response : SyncResponse

/-- The synchronous (`API_MODE=sync`) branch of `api.process` (api.py lines
211-239): load the image (400 on failure), then
`_pipeline_semaphore.acquire()`, run the pipeline, answer 200 with
`_build_receipt_response` or 500 on an exception, and release in `finally`.
`imageLoad` is the outcome of `_load_image_from_request`. -/
def sync_process (imageLoad : Except String Unit)
    (layoutlm : Nat → String → StageOutcome String) (donutRaw : StageOutcome PyVal)
    (loads : String → Option PyVal) (chatModel : String) (chat : ChatOutcome)
    (questions : Option (List String)) (env : Env) : SyncStep :=
  match imageLoad with
  | Except.error err => { effects := [], response := SyncResponse.badRequest err }
  | Except.ok _ =>
    match process_receipt_image layoutlm donutRaw loads chatModel chat questions with
    | Except.ok result =>
      { effects := [WEffect.acquire, WEffect.release],
        response := SyncResponse.okJson (build_receipt_response env result) }
    | Except.error e =>
      { effects := [WEffect.acquire, WEffect.release],
        response := SyncResponse.serverError e }

/-- One step of a caller trying to enter the throttled section.
`rejectedQueueTimeout` is the bounded-wait rejection the spec describes;
it is in the vocabulary so theorems can state that the code never takes it. -/
inductive AcquireStep where
  | acquired (semAfter : Nat)
  | blocked
  | rejectedQueueTimeout
deriving DecidableEq

/-- The Throttle acquisition of the synchronous path, api.py line 232:
`_pipeline_semaphore.acquire()`, i.e. Python
`threading.Semaphore.acquire(blocking=True, timeout=None)`: take a token if
one is free, otherwise keep blocking.  The environment is a parameter to
record that no configuration value is consulted — the code offers no
wait-timeout knob. -/
def sync_acquire_step (_env : Env) (sem : Nat) : AcquireStep :=
  if sem > 0 then AcquireStep.acquired (sem - 1) else AcquireStep.blocked

/-- Phase of one thread of the process with respect to the Throttle.  Each
thread (a synchronous request handler, api.py lines 231-239, or the single
background worker, api.py lines 165-170) follows the same program:
`_pipeline_semaphore.acquire()`; `process_receipt_image(...)`;
`_pipeline_semaphore.release()` in a `finally`. -/
inductive Phase where
  | idle
  | waiting
  | running
  | done
deriving DecidableEq

/-- State of the process: the semaphore token count of
`threading.Semaphore(1)` (api.py line 31) and the phase of every thread. -/
structure ThrottleSys where
  sem : Nat
  threads : List Phase

/-- Interleaving semantics of the throttled call sites.  A thread may start
waiting on the semaphore, may take a token when one is free (entering the
orchestrator call), and on leaving the orchestrator call returns its token;
these are exactly the transitions of `threading.Semaphore` with one initial
token as used at api.py lines 166-170 and 232-239. -/
inductive ThrottleStep : ThrottleSys → ThrottleSys → Prop where
  | start (s : ThrottleSys) (i : Nat) (h : s.threads[i]? = some Phase.idle) :
      ThrottleStep s { s with threads := s.threads.set i Phase.waiting }
  | acquire (s : ThrottleSys) (i : Nat) (hsem : 0 < s.sem)
      (h : s.threads[i]? = some Phase.waiting) :
      ThrottleStep s { sem := s.sem - 1, threads := s.threads.set i Phase.running }
  | release (s : ThrottleSys) (i : Nat)
      (h : s.threads[i]? = some Phase.running) :
      ThrottleStep s { sem := s.sem + 1, threads := s.threads.set i Phase.done }

/-- Initial state: one semaphore token, `n` threads yet to submit. -/
def throttleInit (n : Nat) : ThrottleSys :=
  { sem := 1, threads := List.replicate n Phase.idle }

/-- States reachable from the initial state with `n` threads. -/
inductive ThrottleReachable (n : Nat) : ThrottleSys → Prop where
  | init : ThrottleReachable n (throttleInit n)
  | step {s t : ThrottleSys} (hs : ThrottleReachable n s) (hst : ThrottleStep s t) :
      ThrottleReachable n t

/-- Number of threads currently inside the orchestrator call. -/
def runningCount (s : ThrottleSys) : Nat :=
  s.threads.countP (fun ph => ph == Phase.running)

/-! ## Concrete oracle and state instances (used by witnesses and counterexamples) -/

/-- Concrete oracles for witnessing theorems on closed runs. -/
def wLayoutlmOk : Nat → String → StageOutcome String := fun _ _ => StageOutcome.ok "A"

/-- A Donut stage run that returned an empty dict. -/
def wDonutEmpty : StageOutcome PyVal := StageOutcome.ok (PyVal.dict [])

/-- A `json.loads` oracle for runs whose texts are not valid JSON (real
`json.loads` fails on every input fed to it in those runs). -/
def wLoadsFail : String → Option PyVal := fun _ => Option.none

/-- The concrete pipeline result of the run used by several witnesses: one
question answered "A", empty Donut dict, backend reply `"x"` (not JSON). -/
def wResultRawX : PipelineResult :=
  { receipt := RECEIPT_KEYS.map (fun k => (k, PyVal.none)),
    receipt_meta := some [("_raw", PyVal.str "x"),
                          ("_error", PyVal.str "Invalid JSON from LLM")],
    layoutlm_results := [{ question := "q", answer := "A" }],
    donut_data := PyVal.dict [] }

/-- A stage oracle whose first call raises and whose later calls answer. -/
def wLayoutlmMixed : Nat → String → StageOutcome String :=
  fun i _ => if i = 0 then StageOutcome.exn "boom" else StageOutcome.ok "A"

/-- The concrete pipeline result of the mixed-failure run. -/
def wResultMixed : PipelineResult :=
  { receipt := RECEIPT_KEYS.map (fun k => (k, PyVal.none)),
    receipt_meta := some [("_raw", PyVal.str "x"),
                          ("_error", PyVal.str "Invalid JSON from LLM")],
    layoutlm_results := [{ question := "q1", answer := "[Error: boom]" },
                         { question := "q2", answer := "A" }],
    donut_data := PyVal.dict [] }

/-- A backend response wrapped in a markdown code fence around text that is
not JSON. -/
def wFenceText : String := FENCE ++ "json oops" ++ FENCE

/-- An environment with no callback endpoint configured. -/
def wEnvNoCallback : Env := fun _ => Option.none

/-- An environment with a callback endpoint configured. -/
def wEnvCallback : Env :=
  fun k => if k = "CALLBACK_URL" then some "http://callback.example/hook" else Option.none

/-- A POST oracle on which every attempt fails. -/
def wPostFail : Nat → Bool := fun _ => false

/-- A reachable state with one caller inside the orchestrator and a second
caller submitted. -/
def wSysRunning : ThrottleSys := { sem := 0, threads := [Phase.running, Phase.idle] }

/-- An environment that purports to configure a queue-wait timeout (the code
defines no name for such a setting; this stands for any configuration a
deployer could write). -/
def wEnvTimeout : Env :=
  fun k => if k = "QUEUE_WAIT_TIMEOUT" then some "5" else Option.none

/-! ## Helper lemmas -/

/-- Eliminator for `Except.map` returning `ok`. -/
theorem except_map_ok {α β γ : Type} (f : α → β) (e : Except γ α) (b : β)
    (h : e.map f = Except.ok b) : ∃ a, e = Except.ok a ∧ b = f a := by
  cases e with
  | error _ => simp [Except.map] at h
  | ok a =>
    refine ⟨a, rfl, ?_⟩
    simpa [Except.map] using h.symm

/-- The schema projection always yields exactly the nine keys, in order. -/
theorem ensure_receipt_schema_keys (d : PyDict) :
    dkeys (ensure_receipt_schema d) = RECEIPT_KEYS := rfl

/-! ## Claim C1 -/

/-- C1: for every response of the remote normalization backend (valid JSON
object, JSON with extra or missing keys, non-JSON text, or a backend error —
all behaviours of the `loads` and `chat` oracles), and for every behaviour of
the extraction stages, the `receipt` object of any result the pipeline
returns to a caller has key set equal to exactly the nine schema fields, in
schema order. -/
theorem receipt_keys_exact (layoutlm : Nat → String → StageOutcome String)
    (donutRaw : StageOutcome PyVal) (loads : String → Option PyVal)
    (chatModel : String) (chat : ChatOutcome) (questions : Option (List String))
    (r : PipelineResult)
    (h : process_receipt_image layoutlm donutRaw loads chatModel chat questions
         = Except.ok r) :
    dkeys r.receipt = RECEIPT_KEYS := by
  obtain ⟨receipt, -, hr⟩ := except_map_ok _ _ _ h
  rw [hr]
  exact ensure_receipt_schema_keys receipt

/-- C1 witness: the property evaluated on a concrete run. -/
theorem receipt_keys_exact_witness : dkeys wResultRawX.receipt = RECEIPT_KEYS :=
  receipt_keys_exact wLayoutlmOk wDonutEmpty wLoadsFail "llama3.2"
    (ChatOutcome.reply "x") (some ["q"]) wResultRawX rfl

/-! ## Claim C5 -/

/-- The stage-output list pairs the questions in input order. -/
theorem layoutlm_stage_from_questions (o : Nat → String → StageOutcome String)
    (i : Nat) (qs : List String) :
    (layoutlm_stage_from o i qs).map QA.question = qs := by
  induction qs generalizing i with
  | nil => rfl
  | cons q qs ih =>
    simp only [layoutlm_stage_from, List.map_cons, ih]
    cases o i q <;> rfl

/-- The `j`-th stage-output entry is determined by the outcome of the
`(i+j)`-th stage call on the `j`-th question alone. -/
theorem layoutlm_stage_from_getElem (o : Nat → String → StageOutcome String)
    (i j : Nat) (qs : List String) (q : String) (h : qs[j]? = some q) :
    (layoutlm_stage_from o i qs)[j]? = some (stage_entry (o (i + j) q) q) := by
  induction qs generalizing i j with
  | nil => simp at h
  | cons q0 qs ih =>
    cases j with
    | zero =>
      simp only [List.getElem?_cons_zero, Option.some.injEq] at h
      subst h
      simp [layoutlm_stage_from]
    | succ j =>
      simp only [List.getElem?_cons_succ] at h
      have harith : i + (j + 1) = (i + 1) + j := by omega
      rw [harith]
      simpa [layoutlm_stage_from] using ih (i + 1) j h

/-- C5: for every question list and every behaviour of the question-answering
stage (including any subset of calls raising), the stage-output list of a
returned pipeline result has exactly one `{question, answer}` entry per input
question in input order; a call that raised with message `e` yields the
synthesized marker `"[Error: " ++ e ++ "]"`, and a call that returned `raw`
yields the parsed answer — each entry a function of that question's own call
outcome only, hence unaffected by failures of other questions. -/
theorem stage_outputs_per_question (layoutlm : Nat → String → StageOutcome String)
    (donutRaw : StageOutcome PyVal) (loads : String → Option PyVal)
    (chatModel : String) (chat : ChatOutcome) (questions : Option (List String))
    (r : PipelineResult)
    (h : process_receipt_image layoutlm donutRaw loads chatModel chat questions
         = Except.ok r) :
    (r.layoutlm_results.map QA.question = questions_or_default questions) ∧
    (∀ i q, (questions_or_default questions)[i]? = some q →
      (∀ e, layoutlm i q = StageOutcome.exn e →
        r.layoutlm_results[i]? =
          some { question := q, answer := "[Error: " ++ e ++ "]" }) ∧
      (∀ raw, layoutlm i q = StageOutcome.ok raw →
        r.layoutlm_results[i]? =
          some { question := q, answer := parse_layoutlm_answer raw })) := by
  obtain ⟨receipt, -, hr⟩ := except_map_ok _ _ _ h
  subst hr
  refine ⟨layoutlm_stage_from_questions layoutlm 0 _, fun i q hq => ⟨?_, ?_⟩⟩
  · intro e he
    have hg := layoutlm_stage_from_getElem layoutlm 0 i _ q hq
    rw [Nat.zero_add, he] at hg
    exact hg
  · intro raw hraw
    have hg := layoutlm_stage_from_getElem layoutlm 0 i _ q hq
    rw [Nat.zero_add, hraw] at hg
    exact hg

/-- C5 witness: on a concrete two-question run whose first stage call raises,
the first entry is the error marker and the second is the parsed answer. -/
theorem stage_outputs_per_question_witness :
    wResultMixed.layoutlm_results[0]? =
      some { question := "q1", answer := "[Error: boom]" } ∧
    wResultMixed.layoutlm_results[1]? = some { question := "q2", answer := "A" } := by
  have h := stage_outputs_per_question wLayoutlmMixed wDonutEmpty wLoadsFail
    "llama3.2" (ChatOutcome.reply "x") (some ["q1", "q2"]) wResultMixed rfl
  exact ⟨(h.2 0 "q1" rfl).1 "boom" rfl, (h.2 1 "q2" rfl).2 "A" rfl⟩

/-! ## Claim C4 -/

/-- C4 counterexample: an Orchestrator invocation that does not complete with
a value.  The `except` clause at llm_normalize.py line 74 catches only
`ollama.ResponseError`; when the `chat` call raises an exception of any other
type — as the client library does, e.g. the builtin `ConnectionError` when
the Ollama endpoint is unreachable — the exception propagates out of
`_normalize_via_ollama` and out of `process_receipt_image`, refuting "no
exception from stages or normalization escapes the Orchestrator". -/
theorem orchestrator_exception_escape :
    process_receipt_image wLayoutlmOk wDonutEmpty wLoadsFail "llama3.2"
      (ChatOutcome.otherError "Failed to connect to Ollama") (some ["q"])
      = Except.error "Failed to connect to Ollama" := rfl

/-- On a `ResponseError`, `_normalize_via_ollama` returns an `_error` dict. -/
theorem normalize_responseError_ok (loads : String → Option PyVal)
    (model msg : String) (lr : List QA) (dd : PyVal) :
    ∃ d, normalize_via_ollama loads model (ChatOutcome.responseError msg) lr dd
         = Except.ok d := by
  cases hc : strContains (pyStrip msg) "404" || strContains (pyLower (pyStrip msg)) "not found" with
  | true =>
    exact ⟨[("_error", PyVal.str ("Ollama model " ++ model ++
      " not found. Set OLLAMA_MODEL in .env to a model you have (run ollama list)."))],
      by simp [normalize_via_ollama, hc]⟩
  | false =>
    exact ⟨[("_error", PyVal.str ("Ollama error: " ++ pyStrip msg))],
      by simp [normalize_via_ollama, hc]⟩

/-- C4 amended: the Orchestrator completes with a value whenever every
exception the normalization backend call raises is a `ResponseError` (which
includes non-2xx statuses); stage failures never prevent this; but an
exception of any other type raised by the `chat` call (e.g. `ConnectionError`
for an unreachable endpoint) propagates out of the Orchestrator uncaught. -/
theorem orchestrator_error_containment (layoutlm : Nat → String → StageOutcome String)
    (donutRaw : StageOutcome PyVal) (loads : String → Option PyVal)
    (chatModel : String) (questions : Option (List String)) :
    (∀ msg, ∃ r, process_receipt_image layoutlm donutRaw loads chatModel
        (ChatOutcome.responseError msg) questions = Except.ok r) ∧
    (∀ content, ∃ r, process_receipt_image layoutlm donutRaw loads chatModel
        (ChatOutcome.reply content) questions = Except.ok r) ∧
    (∀ msg, process_receipt_image layoutlm donutRaw loads chatModel
        (ChatOutcome.otherError msg) questions = Except.error msg) := by
  refine ⟨fun msg => ?_, fun content => ?_, fun _ => rfl⟩
  · obtain ⟨d, hd⟩ := normalize_responseError_ok loads chatModel msg
      (layoutlm_stage layoutlm (questions_or_default questions))
      (donut_data_of loads donutRaw)
    exact ⟨_, by simp only [process_receipt_image, normalize_receipt]; rw [hd]; rfl⟩
  · by_cases hc : content = ""
    · subst hc
      exact ⟨_, rfl⟩
    · refine ⟨assemble_result (layoutlm_stage layoutlm (questions_or_default questions))
        (donut_data_of loads donutRaw) (parse_ollama_response loads content), ?_⟩
      simp only [process_receipt_image, normalize_receipt, normalize_via_ollama,
        if_neg hc]
      rfl

/-! ## Claim C7 -/

/-- C7 counterexample: for the non-JSON backend response
`(fence)json oops(fence)`, the normalizer's `_raw` carries the fence-stripped
text `"oops"`, not the original response text, refuting "`_raw` holding the
original response text".  (`wLoadsFail` agrees with `json.loads` here:
neither the full response nor `"oops"` is valid JSON.) -/
theorem raw_not_original_text :
    normalize_receipt wLoadsFail "llama3.2" (ChatOutcome.reply wFenceText)
      [] (PyVal.dict []) =
      Except.ok [("_raw", PyVal.str "oops"),
                 ("_error", PyVal.str "Invalid JSON from LLM")] ∧
    "oops" ≠ wFenceText := ⟨rfl, by decide⟩

/-- C7 amended: if the remote normalization backend returns non-empty text
whose whitespace-stripped, code-fence-extracted form is not valid JSON, the
normalizer's result carries `_raw` holding that stripped/extracted text and
`_error` holding an error description, it does not raise, and the schema
projection of that result sets all nine fields to the missing-value
marker. -/
theorem non_json_response_shape (loads : String → Option PyVal)
    (model content : String) (lr : List QA) (dd : PyVal)
    (hne : content ≠ "")
    (hfail : loads (fenceStrip (pyStrip content)) = Option.none) :
    normalize_receipt loads model (ChatOutcome.reply content) lr dd =
      Except.ok [("_raw", PyVal.str (fenceStrip (pyStrip content))),
                 ("_error", PyVal.str "Invalid JSON from LLM")] ∧
    ensure_receipt_schema
        [("_raw", PyVal.str (fenceStrip (pyStrip content))),
         ("_error", PyVal.str "Invalid JSON from LLM")]
      = RECEIPT_KEYS.map (fun k => (k, PyVal.none)) := by
  constructor
  · simp only [normalize_receipt, normalize_via_ollama, if_neg hne,
      parse_ollama_response]
    rw [hfail]
  · rfl

/-- C7 witness: the amended property evaluated at the concrete non-JSON
response `"not json\n"` (whose stripped form is `"not json"`). -/
theorem non_json_response_shape_witness :
    normalize_receipt wLoadsFail "llama3.2" (ChatOutcome.reply "not json\n")
      [] (PyVal.dict []) =
      Except.ok [("_raw", PyVal.str (fenceStrip (pyStrip "not json\n"))),
                 ("_error", PyVal.str "Invalid JSON from LLM")] ∧
    ensure_receipt_schema
        [("_raw", PyVal.str (fenceStrip (pyStrip "not json\n"))),
         ("_error", PyVal.str "Invalid JSON from LLM")]
      = RECEIPT_KEYS.map (fun k => (k, PyVal.none)) :=
  non_json_response_shape wLoadsFail "llama3.2" "not json\n" [] (PyVal.dict [])
    (by decide) rfl

/-! ## Claim C10 -/

/-- A key found by `dhas` is one of the dict's keys. -/
theorem dhas_mem_keys (d : PyDict) (k : String) (h : dhas d k = true) :
    k ∈ dkeys d := by
  simp only [dhas, List.any_eq_true] at h
  obtain ⟨kv, hmem, hbeq⟩ := h
  have hk : kv.1 = k := by simpa using hbeq
  simp only [dkeys, List.mem_map]
  exact ⟨kv, hmem, hk⟩

/-- The success/failure shape dichotomy for the normalizer output, from the
source of `_normalize_via_ollama` and `_parse_ollama_response`. -/
theorem normalize_shape (loads : String → Option PyVal) (model : String)
    (chat : ChatOutcome) (lr : List QA) (dd : PyVal) (d : PyDict)
    (hn : normalize_via_ollama loads model chat lr dd = Except.ok d) :
    (dkeys d = RECEIPT_KEYS ∧ dhas d "_error" = false ∧ dhas d "_raw" = false) ∨
    (dhas d "_error" = true ∧
     ∀ k, dhas d k = true → k = "_error" ∨ k = "_raw") := by
  cases chat with
  | otherError msg => simp [normalize_via_ollama] at hn
  | responseError msg =>
    right
    simp only [normalize_via_ollama] at hn
    cases hc : strContains (pyStrip msg) "404" || strContains (pyLower (pyStrip msg)) "not found" <;>
      simp only [hc, if_true, if_false, Bool.false_eq_true, Except.ok.injEq] at hn <;>
      subst hn <;>
      exact ⟨rfl, fun k hk => by
        have := dhas_mem_keys _ k hk
        simp only [dkeys, List.map_cons, List.map_nil, List.mem_singleton] at this
        exact Or.inl this⟩
  | reply content =>
    by_cases hcontent : content = ""
    · subst hcontent
      simp only [normalize_via_ollama, if_true, Except.ok.injEq] at hn
      subst hn
      refine Or.inr ⟨rfl, fun k hk => ?_⟩
      have := dhas_mem_keys _ k hk
      simp only [dkeys, List.map_cons, List.map_nil, List.mem_singleton] at this
      exact Or.inl this
    · simp only [normalize_via_ollama, if_neg hcontent, Except.ok.injEq] at hn
      subst hn
      simp only [parse_ollama_response]
      cases hl : loads (fenceStrip (pyStrip content)) with
      | none =>
        simp only [hl]
        refine Or.inr ⟨rfl, fun k hk => ?_⟩
        have := dhas_mem_keys _ k hk
        simp only [dkeys, List.map_cons, List.map_nil, List.mem_cons,
          List.mem_singleton] at this
        rcases this with h1 | h1
        · exact Or.inr h1
        · rcases h1 with h2 | h2
          · exact Or.inl h2
          · exact absurd h2 (by simp)
      | some v =>
        cases v with
        | dict data =>
          simp only [hl]
          exact Or.inl ⟨rfl, rfl, rfl⟩
        | none =>
          simp only [hl]
          refine Or.inr ⟨rfl, fun k hk => ?_⟩
          have := dhas_mem_keys _ k hk
          simp only [dkeys, List.map_cons, List.map_nil, List.mem_cons,
            List.mem_singleton] at this
          rcases this with h1 | h1
          · exact Or.inr h1
          · rcases h1 with h2 | h2
            · exact Or.inl h2
            · exact absurd h2 (by simp)
        | bool b =>
          simp only [hl]
          refine Or.inr ⟨rfl, fun k hk => ?_⟩
          have := dhas_mem_keys _ k hk
          simp only [dkeys, List.map_cons, List.map_nil, List.mem_cons,
            List.mem_singleton] at this
          rcases this with h1 | h1
          · exact Or.inr h1
          · rcases h1 with h2 | h2
            · exact Or.inl h2
            · exact absurd h2 (by simp)
        | int n =>
          simp only [hl]
          refine Or.inr ⟨rfl, fun k hk => ?_⟩
          have := dhas_mem_keys _ k hk
          simp only [dkeys, List.map_cons, List.map_nil, List.mem_cons,
            List.mem_singleton] at this
          rcases this with h1 | h1
          · exact Or.inr h1
          · rcases h1 with h2 | h2
            · exact Or.inl h2
            · exact absurd h2 (by simp)
        | str s =>
          simp only [hl]
          refine Or.inr ⟨rfl, fun k hk => ?_⟩
          have := dhas_mem_keys _ k hk
          simp only [dkeys, List.map_cons, List.map_nil, List.mem_cons,
            List.mem_singleton] at this
          rcases this with h1 | h1
          · exact Or.inr h1
          · rcases h1 with h2 | h2
            · exact Or.inl h2
            · exact absurd h2 (by simp)
        | list xs =>
          simp only [hl]
          refine Or.inr ⟨rfl, fun k hk => ?_⟩
          have := dhas_mem_keys _ k hk
          simp only [dkeys, List.map_cons, List.map_nil, List.mem_cons,
            List.mem_singleton] at this
          rcases this with h1 | h1
          · exact Or.inr h1
          · rcases h1 with h2 | h2
            · exact Or.inl h2
            · exact absurd h2 (by simp)

/-- C10: the normalizer's returned dict has one of exactly two shapes — on
success exactly the nine schema keys and no diagnostic keys, on failure an
`_error` key (possibly `_raw`), no schema key and nothing else; consequently
the Orchestrator's `receipt_meta` is `none` exactly when no diagnostic key is
present (i.e. normalization did not soft-fail), and a non-`none`
`receipt_meta` contains only the keys `_error` and/or `_raw`. -/
theorem normalizer_two_shapes (layoutlm : Nat → String → StageOutcome String)
    (donutRaw : StageOutcome PyVal) (loads : String → Option PyVal)
    (chatModel : String) (chat : ChatOutcome) (questions : Option (List String))
    (d : PyDict)
    (hn : normalize_receipt loads chatModel chat
        (layoutlm_stage layoutlm (questions_or_default questions))
        (donut_data_of loads donutRaw) = Except.ok d) :
    ((dkeys d = RECEIPT_KEYS ∧ dhas d "_error" = false ∧ dhas d "_raw" = false) ∨
     (dhas d "_error" = true ∧
      (∀ k, dhas d k = true → k = "_error" ∨ k = "_raw") ∧
      (∀ k, k ∈ RECEIPT_KEYS → dhas d k = false))) ∧
    (∀ r, process_receipt_image layoutlm donutRaw loads chatModel chat questions
          = Except.ok r →
      (r.receipt_meta = Option.none ↔
        (dhas d "_error" = false ∧ dhas d "_raw" = false)) ∧
      (∀ m, r.receipt_meta = some m →
        ∀ k, dhas m k = true → k = "_error" ∨ k = "_raw")) := by
  have hshape := normalize_shape loads chatModel chat _ _ d hn
  constructor
  · rcases hshape with hs | ⟨he, hsub⟩
    · exact Or.inl hs
    · refine Or.inr ⟨he, hsub, fun k hk => ?_⟩
      cases hdk : dhas d k with
      | false => rfl
      | true =>
        rcases hsub k hdk with rfl | rfl
        · exact absurd hk (by decide)
        · exact absurd hk (by decide)
  · intro r hr
    obtain ⟨d2, hd2, hrr⟩ := except_map_ok _ _ _ hr
    rw [hn] at hd2
    injection hd2 with hdd
    subst hdd
    subst hrr
    constructor
    · simp only [assemble_result]
      cases he : dhas d "_error" <;> cases hw : dhas d "_raw" <;>
        simp [he, hw]
    · intro m hm k hk
      simp only [assemble_result] at hm
      by_cases hb : (dhas d "_error" || dhas d "_raw") = true
      · rw [if_pos hb] at hm
        injection hm with hm
        subst hm
        simp only [dhas, List.any_eq_true] at hk
        obtain ⟨kv, hmem, hbeq⟩ := hk
        have hkeq : kv.1 = k := by simpa using hbeq
        have hp := List.of_mem_filter hmem
        rw [hkeq] at hp
        simp only [Bool.or_eq_true, beq_iff_eq] at hp
        exact hp
      · rw [if_neg hb] at hm
        exact absurd hm (by simp)

/-- C10 witness: on the concrete failed-normalization run, the failure shape
and the populated `receipt_meta` side channel. -/
theorem normalizer_two_shapes_witness :
    wResultRawX.receipt_meta = some [("_raw", PyVal.str "x"),
                                     ("_error", PyVal.str "Invalid JSON from LLM")] ∧
    (dhas [("_raw", PyVal.str "x"),
           ("_error", PyVal.str "Invalid JSON from LLM")] "_error" = true) ∧
    ¬(wResultRawX.receipt_meta = Option.none) := by
  have h := normalizer_two_shapes wLayoutlmOk wDonutEmpty wLoadsFail "llama3.2"
    (ChatOutcome.reply "x") (some ["q"])
    [("_raw", PyVal.str "x"), ("_error", PyVal.str "Invalid JSON from LLM")] rfl
  refine ⟨rfl, ?_, ?_⟩
  · rcases h.1 with ⟨hk, -, -⟩ | ⟨he, -, -⟩
    · exact absurd hk (by decide)
    · exact he
  · intro hnone
    have := (h.2 wResultRawX rfl).1.mp hnone
    exact absurd this.1 (by decide)

/-! ## Claim C3 -/

/-- C3: for every dequeued job (temp image present) and every behaviour of
image decode, the stages, the normalization backend: the worker loop body
invokes the callback dispatcher exactly once, successfully deletes the job's
temporary image exactly once (leaving it absent), and hands control back to
the loop for the next job — on the decode-failure, orchestrator-exception
and success paths alike. -/
theorem worker_job_lifecycle (decode : StageOutcome Unit)
    (layoutlm : Nat → String → StageOutcome String) (donutRaw : StageOutcome PyVal)
    (loads : String → Option PyVal) (chatModel : String) (chat : ChatOutcome)
    (questions : Option (List String)) :
    ((worker_body true decode layoutlm donutRaw loads chatModel chat
        questions).effects.countP isCallbackEff = 1) ∧
    ((worker_body true decode layoutlm donutRaw loads chatModel chat
        questions).effects.countP isRemoveEff = 1) ∧
    ((worker_body true decode layoutlm donutRaw loads chatModel chat
        questions).outcome = LoopOutcome.nextJob) ∧
    ((worker_body true decode layoutlm donutRaw loads chatModel chat
        questions).filePresent = false) := by
  cases decode with
  | exn e => exact ⟨rfl, rfl, rfl, rfl⟩
  | ok u =>
    unfold worker_body
    cases hp : process_receipt_image layoutlm donutRaw loads chatModel chat questions with
    | error e => exact ⟨rfl, rfl, rfl, rfl⟩
    | ok result => exact ⟨rfl, rfl, rfl, rfl⟩

/-! ## Claim C8 -/

/-- C8: on every path of the worker loop body and of the synchronous request
handler — whether the protected `process_receipt_image` call returns normally
or raises, and whatever the decode/image-load outcome — the number of
Throttle releases equals the number of acquisitions, and there is at most one
acquisition per body run (so each acquisition is released exactly once). -/
theorem throttle_release_per_acquisition (filePresent : Bool)
    (decode : StageOutcome Unit) (imageLoad : Except String Unit)
    (layoutlm : Nat → String → StageOutcome String) (donutRaw : StageOutcome PyVal)
    (loads : String → Option PyVal) (chatModel : String) (chat : ChatOutcome)
    (questions : Option (List String)) (env : Env) :
    ((worker_body filePresent decode layoutlm donutRaw loads chatModel chat
        questions).effects.countP isAcquireEff =
     (worker_body filePresent decode layoutlm donutRaw loads chatModel chat
        questions).effects.countP isReleaseEff) ∧
    ((worker_body filePresent decode layoutlm donutRaw loads chatModel chat
        questions).effects.countP isAcquireEff ≤ 1) ∧
    ((sync_process imageLoad layoutlm donutRaw loads chatModel chat questions
        env).effects.countP isAcquireEff =
     (sync_process imageLoad layoutlm donutRaw loads chatModel chat questions
        env).effects.countP isReleaseEff) ∧
    ((sync_process imageLoad layoutlm donutRaw loads chatModel chat questions
        env).effects.countP isAcquireEff ≤ 1) := by
  unfold worker_body sync_process
  cases filePresent <;> cases decode <;>
    rcases imageLoad with e | u <;>
    cases hp : process_receipt_image layoutlm donutRaw loads chatModel chat questions <;>
    refine ⟨rfl, ?_, rfl, ?_⟩ <;>
    first
      | exact Nat.le_refl 1
      | exact Nat.zero_le 1

/-! ## Claim C6 -/

/-- C6: the callback dispatcher is a total function of its inputs (it never
raises): with no configured callback endpoint (`CALLBACK_URL` empty after
strip) it makes zero POST attempts, and with an endpoint configured and every
POST attempt failing it makes exactly `CALLBACK_RETRIES + 1 = 3` attempts and
then returns. -/
theorem callback_dispatcher_attempts (env : Env) (post : Nat → Bool) :
    (pyStrip (envGet env "CALLBACK_URL" "") = "" → send_callback env post = 0) ∧
    (pyStrip (envGet env "CALLBACK_URL" "") ≠ "" → (∀ i, post i = false) →
      send_callback env post = CALLBACK_RETRIES + 1) ∧
    CALLBACK_RETRIES + 1 = 3 := by
  refine ⟨fun h => ?_, fun h hpost => ?_, rfl⟩
  · simp [send_callback, h]
  · simp [send_callback, h, CALLBACK_RETRIES, callbackAttemptsFrom, hpost]

/-- C6 witness: zero attempts without an endpoint; exactly three attempts
when configured and always failing. -/
theorem callback_dispatcher_attempts_witness :
    send_callback wEnvNoCallback wPostFail = 0 ∧
    send_callback wEnvCallback wPostFail = 3 :=
  ⟨(callback_dispatcher_attempts wEnvNoCallback wPostFail).1 rfl,
   (callback_dispatcher_attempts wEnvCallback wPostFail).2.1 (by decide)
     (fun _ => rfl)⟩

/-! ## Claim C2 -/

/-- Replacing one element changes `countP` by the discriminants of the old
and new elements (stated additively). -/
theorem countP_set_phase (p : Phase → Bool) (l : List Phase) (i : Nat)
    (a b : Phase) (h : l[i]? = some a) :
    (l.set i b).countP p + (if p a then 1 else 0)
      = l.countP p + (if p b then 1 else 0) := by
  induction l generalizing i with
  | nil => simp at h
  | cons x xs ih =>
    cases i with
    | zero =>
      simp only [List.getElem?_cons_zero, Option.some.injEq] at h
      subst h
      simp only [List.set_cons_zero, List.countP_cons]
      omega
    | succ i =>
      simp only [List.getElem?_cons_succ] at h
      have hi := ih i h
      simp only [List.set_cons_succ, List.countP_cons]
      omega

/-- An element found by an index lookup is a member of the list. -/
theorem mem_of_getElem?_phase (l : List Phase) (i : Nat) (a : Phase)
    (h : l[i]? = some a) : a ∈ l := by
  induction l generalizing i with
  | nil => simp at h
  | cons x xs ih =>
    cases i with
    | zero =>
      simp only [List.getElem?_cons_zero, Option.some.injEq] at h
      exact h ▸ List.mem_cons_self x xs
    | succ i =>
      simp only [List.getElem?_cons_succ] at h
      exact List.mem_cons_of_mem x (ih i h)

/-- The semaphore invariant: the free-token count plus the number of threads
inside the orchestrator call is always exactly the initial token count 1. -/
theorem throttle_invariant {n : Nat} {s : ThrottleSys}
    (h : ThrottleReachable n s) : s.sem + runningCount s = 1 := by
  induction h with
  | init =>
    simp only [throttleInit, runningCount]
    have hz : (List.replicate n Phase.idle).countP (fun ph => ph == Phase.running) = 0 := by
      induction n with
      | zero => rfl
      | succ m ihm => simp [List.replicate_succ, List.countP_cons, ihm]
    omega
  | @step s t hs hst ih =>
    cases hst with
    | start i hthread =>
      have hc := countP_set_phase (fun ph => ph == Phase.running) s.threads i
        Phase.idle Phase.waiting hthread
      simp only [runningCount] at ih ⊢
      simp only [show ((Phase.idle == Phase.running) = false) from rfl,
        show ((Phase.waiting == Phase.running) = false) from rfl,
        if_false, Bool.false_eq_true] at hc
      omega
    | acquire i hsem hthread =>
      have hc := countP_set_phase (fun ph => ph == Phase.running) s.threads i
        Phase.waiting Phase.running hthread
      simp only [runningCount] at ih ⊢
      simp only [show ((Phase.waiting == Phase.running) = false) from rfl,
        show ((Phase.running == Phase.running) = true) from rfl,
        if_false, if_true, Bool.false_eq_true] at hc
      omega
    | release i hthread =>
      have hc := countP_set_phase (fun ph => ph == Phase.running) s.threads i
        Phase.running Phase.done hthread
      simp only [runningCount] at ih ⊢
      simp only [show ((Phase.running == Phase.running) = true) from rfl,
        show ((Phase.done == Phase.running) = false) from rfl,
        if_false, if_true, Bool.false_eq_true] at hc
      omega

/-- C2: in every reachable interleaving of any number of synchronous callers
and the background worker — all of which enter the orchestrator only through
`_pipeline_semaphore` — at most one thread is inside `process_receipt_image`
at any instant, and while one is, it holds the single token (the semaphore is
empty). -/
theorem at_most_one_in_flight (n : Nat) (s : ThrottleSys)
    (h : ThrottleReachable n s) :
    runningCount s ≤ 1 ∧
    (∀ i : Nat, s.threads[i]? = some Phase.running → s.sem = 0) := by
  have hinv := throttle_invariant h
  refine ⟨by omega, fun i hi => ?_⟩
  have hmem : Phase.running ∈ s.threads := mem_of_getElem?_phase _ i _ hi
  have hpos : 0 < runningCount s := by
    rw [runningCount, List.countP_pos_iff]
    exact ⟨Phase.running, hmem, rfl⟩
  omega

/-- C2 witness: the invariant evaluated on the concrete reachable state where
thread 0 acquired the throttle and entered the orchestrator. -/
theorem at_most_one_in_flight_witness :
    runningCount wSysRunning ≤ 1 ∧
    (∀ i : Nat, wSysRunning.threads[i]? = some Phase.running → wSysRunning.sem = 0) :=
  at_most_one_in_flight 2 wSysRunning
    (ThrottleReachable.step
      (ThrottleReachable.step ThrottleReachable.init
        (ThrottleStep.start (throttleInit 2) 0 rfl))
      (ThrottleStep.acquire _ 0 (by decide) rfl))

/-! ## Claim C9 -/

/-- C9 counterexample: at a concrete contended instant (no free token), under
an environment carrying a queue-wait-timeout setting, the synchronous
caller's acquisition step blocks; it is not the queue-wait-timeout rejection
the claim requires — the code reads no timeout configuration at all, so no
configuration can produce that rejection. -/
theorem no_queue_wait_timeout_counterexample :
    sync_acquire_step wEnvTimeout 0 = AcquireStep.blocked ∧
    AcquireStep.blocked ≠ AcquireStep.rejectedQueueTimeout :=
  ⟨rfl, by decide⟩

/-- C9 amended: the code offers no queue-wait timeout.  The synchronous
path's Throttle acquisition consults no configuration (it is the same
function of the token count for every environment); when no token is free it
blocks — without bound, since no alternative transition exists for a waiting
caller — and it never produces a queue-wait-timeout rejection, nor does the
synchronous handler ever answer with one. -/
theorem no_queue_wait_timeout (env env2 : Env) (sem : Nat)
    (imageLoad : Except String Unit)
    (layoutlm : Nat → String → StageOutcome String) (donutRaw : StageOutcome PyVal)
    (loads : String → Option PyVal) (chatModel : String) (chat : ChatOutcome)
    (questions : Option (List String)) :
    (sem = 0 → sync_acquire_step env sem = AcquireStep.blocked) ∧
    sync_acquire_step env sem = sync_acquire_step env2 sem ∧
    sync_acquire_step env sem ≠ AcquireStep.rejectedQueueTimeout ∧
    isQueueTimeoutResp (sync_process imageLoad layoutlm donutRaw loads chatModel
      chat questions env).response = false := by
  refine ⟨fun hs => by simp [sync_acquire_step, hs], rfl, ?_, ?_⟩
  · unfold sync_acquire_step
    split <;> simp
  · unfold sync_process
    rcases imageLoad with e | u
    · rfl
    · cases hp : process_receipt_image layoutlm donutRaw loads chatModel chat questions <;> rfl

/-- C9 witness: the amended property applied at a concrete contended state
under the concrete purported-timeout environment. -/
theorem no_queue_wait_timeout_witness :
    sync_acquire_step wEnvTimeout 0 = AcquireStep.blocked :=
  (no_queue_wait_timeout wEnvTimeout wEnvNoCallback 0 (Except.error "Missing image")
    wLayoutlmOk wDonutEmpty wLoadsFail "llama3.2" (ChatOutcome.reply "x")
    (some ["q"])).1 rfl

end ReceiptOCR
